import Mathlib

/-!
Verification of the admin-panel rebuild-job status protocol of the
facial-recognition repository.

The client side (React admin SPA) is embedded from
`src/admin/client/src/types/index.ts`, `src/admin/client/src/services/api.ts`,
`src/admin/client/src/pages/Dashboard.tsx`, `src/admin/client/src/pages/Enroll.tsx`
and the `PersonModal` component.  The backend Job State Store / Job Runner /
Trigger Endpoint (a Python Flask server) is not part of the reviewed sources,
so it is modelled from the design spec where a claim needs it; such
definitions carry a `Modelled from the spec:` doc comment.
-/

namespace FacialRecognition

/-- The `status` enum of the `RebuildStatus` interface in `types/index.ts`:
`idle | rebuilding | reloading | completed | failed`. -/
inductive JobStatus
  | idle
  | rebuilding
  | reloading
  | completed
  | failed
  deriving DecidableEq, Repr

/-- The `triggered_by` enum of the `RebuildStatus` interface in `types/index.ts`:
`enroll | delete | add_image | delete_image | manual` (the field itself is nullable). -/
inductive TriggeredBy
  | enroll
  | delete
  | add_image
  | delete_image
  | manual
  deriving DecidableEq, Repr

/-- The `RebuildStatus` record of `types/index.ts` (the wire shape of the
status protocol's job record). -/
structure RebuildStatus where
  is_rebuilding : Bool
  progress : Nat
  status : JobStatus
  message : String
  started_at : Option String
  completed_at : Option String
  last_error : Option String
  triggered_by : Option TriggeredBy
  deriving DecidableEq, Repr

/-- Type descriptors for the declared fields of the TypeScript interfaces,
used to reflect the interface declarations themselves (field names and
types) as data. -/
inductive FieldTy
  | boolean
  | number
  | str
  | nullableStr
  | statusEnum
  | nullableTriggerEnum
  | optBoolean
  | optStr
  | optRebuildStatus
  deriving DecidableEq, Repr

/-- Field list of `interface RebuildStatus` in `types/index.ts`, transcribed
declaration by declaration. -/
def rebuildStatusFields : List (String × FieldTy) :=
  [("is_rebuilding", FieldTy.boolean),
   ("progress", FieldTy.number),
   ("status", FieldTy.statusEnum),
   ("message", FieldTy.str),
   ("started_at", FieldTy.nullableStr),
   ("completed_at", FieldTy.nullableStr),
   ("last_error", FieldTy.nullableStr),
   ("triggered_by", FieldTy.nullableTriggerEnum)]

/-- Field list of `interface ApiResponse` in `types/index.ts`. -/
def apiResponseFields : List (String × FieldTy) :=
  [("success", FieldTy.boolean),
   ("message", FieldTy.optStr),
   ("error", FieldTy.optStr),
   ("rebuild_started", FieldTy.optBoolean),
   ("rebuild_message", FieldTy.optStr)]

/-- Field list of the response type of `rebuildDatabase` in `services/api.ts`:
`ApiResponse & 123 status?: RebuildStatus 125` (an intersection type, so the
`ApiResponse` fields followed by the optional `status` field). -/
def rebuildDbResponseFields : List (String × FieldTy) :=
  apiResponseFields ++ [("status", FieldTy.optRebuildStatus)]

/-- The `ApiResponse` record of `types/index.ts` as a value type. -/
structure ApiResponse where
  success : Bool
  message : Option String
  error : Option String
  rebuild_started : Option Bool
  rebuild_message : Option String
  deriving DecidableEq, Repr

/-- The response value of `POST /api/rebuild_db`
(`ApiResponse` plus the optional `status` field, as typed in `services/api.ts`). -/
structure RebuildDbResponse where
  success : Bool
  message : Option String
  error : Option String
  rebuild_started : Option Bool
  rebuild_message : Option String
  status : Option RebuildStatus
  deriving DecidableEq, Repr

/-! ## Backend job machine

The backend (Job State Store, Job Runner, Trigger Endpoint) lives in a Python
server that is not among the reviewed sources; the definitions below are
modelled from the spec (sections 3, 4.2 and 4.4). -/

/-- Modelled from the spec: the idle default record the Job State Store holds
at process start ("created/reset at process start in `idle` state"). -/
def initialJob : RebuildStatus :=
  { is_rebuilding := false
    progress := 0
    status := JobStatus.idle
    message := ""
    started_at := none
    completed_at := none
    last_error := none
    triggered_by := none }

/-- Modelled from the spec: the running start state a trigger resets the job
record to ("Sets `is_running=true`, `status=rebuilding`, `started_at=now`,
`progress=0`, `triggered_by`"); the repository's own field name for the
running flag is `is_rebuilding`. -/
def startJob (who : TriggeredBy) (now : String) : RebuildStatus :=
  { is_rebuilding := true
    progress := 0
    status := JobStatus.rebuilding
    message := "Rebuilding database..."
    started_at := some now
    completed_at := none
    last_error := none
    triggered_by := some who }

/-- Modelled from the spec: the events that mutate the Job State Store.  Only
the Trigger Endpoint and the single Job Runner write to it; the Runner's
events (`progressUpdate`, `reloadPhase`, `finishOk`, `finishErr`) occur only
while a job is running. -/
inductive JobEvent
  | trigger (who : TriggeredBy) (now : String)
  | progressUpdate (p : Nat) (msg : String)
  | reloadPhase (msg : String)
  | finishOk (now : String)
  | finishErr (err : String) (now : String)

/-- Modelled from the spec: one mutation step of the Job State Store.  A
trigger while running is rejected with no state change; Runner events are
no-ops unless a job is running (the Trigger Endpoint checks `is_rebuilding`
before starting the single Runner). -/
def jobStep (s : RebuildStatus) (e : JobEvent) : RebuildStatus :=
  match e with
  | JobEvent.trigger who now =>
      if s.is_rebuilding then s else startJob who now
  | JobEvent.progressUpdate p msg =>
      if s.is_rebuilding then { s with progress := p, message := msg } else s
  | JobEvent.reloadPhase msg =>
      if s.is_rebuilding then { s with status := JobStatus.reloading, message := msg } else s
  | JobEvent.finishOk now =>
      if s.is_rebuilding then
        { s with is_rebuilding := false
                 status := JobStatus.completed
                 progress := 100
                 completed_at := some now
                 message := "Database rebuild completed" }
      else s
  | JobEvent.finishErr err now =>
      if s.is_rebuilding then
        { s with is_rebuilding := false
                 status := JobStatus.failed
                 completed_at := some now
                 last_error := some err
                 message := "Database rebuild failed" }
      else s

/-- The job records reachable from the process-start state under the
spec-modelled mutation steps. -/
inductive JobReachable : RebuildStatus → Prop
  | init : JobReachable initialJob
  | step {s : RebuildStatus} (h : JobReachable s) (e : JobEvent) :
      JobReachable (jobStep s e)

/-- The state invariant of the job record: the running flag holds exactly in
the `rebuilding`/`reloading` phases, running states carry no error, a
`completed` state has no error and full progress, and a `failed` state
carries an error. -/
def JobInv (s : RebuildStatus) : Prop :=
  (s.is_rebuilding = true ↔ (s.status = JobStatus.rebuilding ∨ s.status = JobStatus.reloading))
  ∧ (s.is_rebuilding = true → s.last_error = none)
  ∧ (s.status = JobStatus.completed → s.last_error = none ∧ s.progress = 100)
  ∧ (s.status = JobStatus.failed → s.last_error ≠ none)

/-- Modelled from the spec: the Trigger Endpoint (`POST /api/rebuild_db`).
If a job is running it rejects with a normal `success=false` result and no
state change; otherwise it resets the record to the running start state,
hands off to the Job Runner, and acknowledges.  Returns the HTTP response
value together with the resulting store state; it is a total function (a
rejected trigger is a returned failure result, not a raised exception). -/
def rebuild_db (s : RebuildStatus) (who : TriggeredBy) (now : String) :
    RebuildDbResponse × RebuildStatus :=
  if s.is_rebuilding then
    ({ success := false
       message := none
       error := some ("Rebuild already in progress")
       rebuild_started := none
       rebuild_message := none
       status := some s }, s)
  else
    let s2 := startJob who now
    ({ success := true
       message := some ("Rebuild started")
       error := none
       rebuild_started := none
       rebuild_message := none
       status := some s2 }, s2)

/-! ## Client model (React admin SPA)

Embedded from `Dashboard.tsx`, `Enroll.tsx`, `PersonModal.tsx` and
`services/api.ts`.  Effects are made explicit: each handler takes the
result of its awaited network call(s) (`Except Unit _`, since the
TypeScript `catch` blocks discard the error) and returns the new component
state together with the list of toasts shown and the list of API calls
issued. -/

/-- The four toast types of `showToast` in the admin client. -/
inductive ToastType
  | success
  | error
  | warning
  | info
  deriving DecidableEq, Repr

/-- One `showToast(message, type)` call. -/
structure Toast where
  message : String
  type : ToastType
  deriving DecidableEq, Repr

/-- The API requests the Dashboard issues. -/
inductive ApiCall
  | getStats
  | getRebuildStatus
  | postRebuildDb
  deriving DecidableEq, Repr

/-- The `database` object of `StatsResponse` in `types/index.ts`. -/
structure DatabaseInfo where
  dbExists : Bool
  size : Nat
  modified : Option String
  deriving DecidableEq, Repr

/-- The `StatsResponse` record of `types/index.ts`. -/
structure StatsResponse where
  total_identities : Nat
  total_images : Nat
  database : DatabaseInfo
  rebuild_status : RebuildStatus
  deriving DecidableEq, Repr

/-- The Dashboard component's state: `stats`, `rebuildStatus`, `loading`
(React `useState`) and `pollIntervalRef.current` (a nullable timer id). -/
structure DashboardState where
  stats : Option StatsResponse
  rebuildStatus : Option RebuildStatus
  loading : Bool
  pollInterval : Option Nat
  deriving DecidableEq, Repr

/-- A browser session hosting the Dashboard: the component state plus the
set of interval timers actually live in the browser (`window.setInterval`
creates one; `clearInterval` destroys it) and a counter supplying fresh
timer ids. -/
structure Session where
  dash : DashboardState
  liveTimers : List Nat
  nextTimer : Nat
  deriving DecidableEq, Repr

/-- JavaScript `s || dflt` on strings: the empty string is falsy. -/
def strOr (s dflt : String) : String :=
  if s = "" then dflt else s

/-- JavaScript `o || dflt` where `o` is an optional string field
(`undefined` and the empty string are falsy). -/
def optStrOr (o : Option String) (dflt : String) : String :=
  match o with
  | none => dflt
  | some s => strOr s dflt

/-- `loadStats` of `Dashboard.tsx`: fetch `/api/stats`; on success store the
stats and the embedded rebuild status and return the latter; on failure show
an error toast and return null.  Either way `loading` becomes false. -/
def loadStats (d : DashboardState) (r : Except Unit StatsResponse) :
    DashboardState × List Toast × Option RebuildStatus :=
  match r with
  | Except.ok data =>
      ({ d with stats := some data
                rebuildStatus := some data.rebuild_status
                loading := false },
       [], some data.rebuild_status)
  | Except.error _ =>
      ({ d with loading := false },
       [{ message := "Failed to load dashboard data", type := ToastType.error }], none)

/-- `startPolling` of `Dashboard.tsx`: if a poll interval already exists,
return immediately; otherwise create a fresh interval timer and remember its
id in the ref. -/
def startPolling (ss : Session) : Session :=
  if ss.dash.pollInterval.isSome then ss
  else
    { dash := { ss.dash with pollInterval := some ss.nextTimer }
      liveTimers := ss.liveTimers ++ [ss.nextTimer]
      nextTimer := ss.nextTimer + 1 }

/-- The `if (pollIntervalRef.current) then clearInterval; ref := null`
pattern of `pollRebuildStatus` (and, up to the discarded ref, of the
`useEffect` cleanup). -/
def stopPolling (ss : Session) : Session :=
  match ss.dash.pollInterval with
  | some t =>
      { ss with dash := { ss.dash with pollInterval := none }
                liveTimers := ss.liveTimers.erase t }
  | none => ss

/-- `pollRebuildStatus` of `Dashboard.tsx`: fetch `/api/rebuild_status`;
a failed fetch is swallowed (`catch : return null`, no state change).  On
success store the status; if it is terminal (`completed` or `failed`),
refresh full stats via `loadStats`, stop polling, and show one toast —
success with `status.message || default` when completed, error when
failed. -/
def pollRebuildStatusRun (ss : Session) (statusResult : Except Unit RebuildStatus)
    (statsResult : Except Unit StatsResponse) : Session × List Toast × List ApiCall :=
  match statusResult with
  | Except.error _ => (ss, [], [ApiCall.getRebuildStatus])
  | Except.ok status =>
      let ss1 : Session := { ss with dash := { ss.dash with rebuildStatus := some status } }
      if status.status = JobStatus.completed ∨ status.status = JobStatus.failed then
        let d2 := (loadStats ss1.dash statsResult).1
        let statsToasts := (loadStats ss1.dash statsResult).2.1
        let ss2 := stopPolling { ss1 with dash := d2 }
        let finalToast :=
          if status.status = JobStatus.completed then
            { message := strOr status.message ("Database rebuild completed!")
              type := ToastType.success }
          else
            { message := strOr status.message ("Database rebuild failed")
              type := ToastType.error }
        (ss2, statsToasts ++ [finalToast], [ApiCall.getRebuildStatus, ApiCall.getStats])
      else
        (ss1, [], [ApiCall.getRebuildStatus])

/-- The truthiness test `rebuildStatus?.is_rebuilding` (optional chaining:
a missing record is falsy). -/
def isRebuildingLocal (r : Option RebuildStatus) : Bool :=
  match r with
  | some s => s.is_rebuilding
  | none => false

/-- `handleRebuild` of `Dashboard.tsx`: if the locally cached status shows a
rebuild in progress, show a warning and return without any request;
otherwise `POST /api/rebuild_db` and, on `success`, show an info toast and
start polling; on a failure result or a thrown request, show an error
toast. -/
def handleRebuildRun (ss : Session) (resp : Except Unit RebuildDbResponse) :
    Session × List Toast × List ApiCall :=
  if isRebuildingLocal ss.dash.rebuildStatus then
    (ss, [{ message := "Rebuild already in progress", type := ToastType.warning }], [])
  else
    match resp with
    | Except.ok r =>
        if r.success then
          (startPolling ss,
           [{ message := "Database rebuild started...", type := ToastType.info }],
           [ApiCall.postRebuildDb])
        else
          (ss,
           [{ message := "Failed to start rebuild: " ++ optStrOr r.error ("Unknown error")
              type := ToastType.error }],
           [ApiCall.postRebuildDb])
    | Except.error _ =>
        (ss,
         [{ message := "Failed to start database rebuild", type := ToastType.error }],
         [ApiCall.postRebuildDb])

/-- The Dashboard `useEffect` body on mount: `loadStats` then, when the
returned status has `is_rebuilding` set, `startPolling`. -/
def mountRun (ss : Session) (statsResult : Except Unit StatsResponse) :
    Session × List Toast × List ApiCall :=
  let d2 := (loadStats ss.dash statsResult).1
  let toasts := (loadStats ss.dash statsResult).2.1
  let ret := (loadStats ss.dash statsResult).2.2
  let ss2 : Session := { ss with dash := d2 }
  match ret with
  | some st =>
      (if st.is_rebuilding then startPolling ss2 else ss2, toasts, [ApiCall.getStats])
  | none => (ss2, toasts, [ApiCall.getStats])

/-- The Dashboard `useEffect` cleanup on unmount: `clearInterval` on the
current poll interval, if any.  The ref itself dies with the component, so
the surviving observable effect is the removal of the live timer. -/
def unmountRun (ss : Session) : Session :=
  stopPolling ss

/-- The observable Dashboard events: mount (initial load), a tick of the
poll interval, a click on Manual Rebuild, a click on Refresh, unmount.
Each network-touching event carries the result of its awaited call(s). -/
inductive DashEvent
  | mount (statsResult : Except Unit StatsResponse)
  | pollTick (statusResult : Except Unit RebuildStatus) (statsResult : Except Unit StatsResponse)
  | rebuildClick (resp : Except Unit RebuildDbResponse)
  | refreshClick (statsResult : Except Unit StatsResponse)
  | unmount

/-- One step of the Dashboard session.  A `pollTick` fires only while the
poll interval timer exists. -/
def sessionStep (ss : Session) (e : DashEvent) : Session × List Toast × List ApiCall :=
  match e with
  | DashEvent.mount r => mountRun ss r
  | DashEvent.pollTick st sr =>
      if ss.dash.pollInterval.isSome then pollRebuildStatusRun ss st sr else (ss, [], [])
  | DashEvent.rebuildClick r => handleRebuildRun ss r
  | DashEvent.refreshClick r =>
      ({ ss with dash := (loadStats ss.dash r).1 }, (loadStats ss.dash r).2.1, [ApiCall.getStats])
  | DashEvent.unmount => (unmountRun ss, [], [])

/-- The session at page load: empty component state, no live timers. -/
def initSession : Session :=
  { dash := { stats := none, rebuildStatus := none, loading := true, pollInterval := none }
    liveTimers := []
    nextTimer := 0 }

/-- Sessions reachable from page load under Dashboard events. -/
inductive SessionReachable : Session → Prop
  | init : SessionReachable initSession
  | step {ss : Session} (h : SessionReachable ss) (e : DashEvent) :
      SessionReachable (sessionStep ss e).1

/-- The timer invariant: the live browser timers are exactly the one (if
any) recorded in `pollIntervalRef`. -/
def TimerInv (ss : Session) : Prop :=
  ss.liveTimers = ss.dash.pollInterval.toList

/-- The poll period of `window.setInterval(() => pollRebuildStatus(), 1000)`
in `startPolling`, in milliseconds. -/
def pollIntervalMs : Nat := 1000

/-- Whether the Dashboard renders the progress bar (`rebuild-progress` /
`progress-fill` block): guarded by `rebuildStatus?.is_rebuilding &&` in the
JSX. -/
def progressIndicatorShown (r : Option RebuildStatus) : Bool :=
  isRebuildingLocal r

/-! ## CRUD client operations (`services/api.ts`) and their UI handlers -/

/-- One multipart request as the API client builds it: the posted path and
the `FormData` entries in `append` order. -/
structure ApiRequest where
  path : String
  form : List (String × String)
  deriving DecidableEq, Repr

/-- JavaScript `Boolean.prototype.toString`, used by
`formData.append(..., autoRebuild.toString())`. -/
def boolToString (b : Bool) : String :=
  if b then "true" else "false"

/-- The default value of the `autoRebuild` parameter of `enrollPerson`,
`addImage`, `deletePerson` and `deleteImage` in `services/api.ts`
(`autoRebuild: boolean = true`); all of their UI call sites omit the
argument. -/
def defaultAutoRebuild : Bool := true

/-- `enrollPerson` of `services/api.ts`: the request it posts (images are
identified by filename here). -/
def enrollPersonReq (name info : String) (images : List String)
    (autoRebuild : Bool) : ApiRequest :=
  { path := "/api/enroll"
    form := [("name", name), ("info", info), ("auto_rebuild", boolToString autoRebuild)]
            ++ images.map (fun f => ("images", f)) }

/-- `addImage` of `services/api.ts`: the request it posts. -/
def addImageReq (person image : String) (autoRebuild : Bool) : ApiRequest :=
  { path := "/api/add_image"
    form := [("person", person), ("image", image), ("auto_rebuild", boolToString autoRebuild)] }

/-- `deletePerson` of `services/api.ts`: the request it posts. -/
def deletePersonReq (person : String) (autoRebuild : Bool) : ApiRequest :=
  { path := "/api/delete_person"
    form := [("person", person), ("auto_rebuild", boolToString autoRebuild)] }

/-- `deleteImage` of `services/api.ts`: the request it posts. -/
def deleteImageReq (person filename : String) (autoRebuild : Bool) : ApiRequest :=
  { path := "/api/delete_image"
    form := [("person", person), ("filename", filename), ("auto_rebuild", boolToString autoRebuild)] }

/-- JavaScript truthiness of the optional `rebuild_started` field
(`if (response.rebuild_started)`). -/
def rebuildStartedTruthy (o : Option Bool) : Bool :=
  match o with
  | some b => b
  | none => false

/-- The info toast the UI shows when an auto-rebuild was started. -/
def rebuildStartedToast : Toast :=
  { message := "Database rebuild started automatically...", type := ToastType.info }

/-- `handleDelete` of `PersonModal.tsx`: the toasts it shows, given whether
the confirm dialog was accepted and the result of `deletePerson`. -/
def handleDeleteToasts (confirmed : Bool) (r : Except Unit ApiResponse) : List Toast :=
  if confirmed then
    match r with
    | Except.ok resp =>
        if resp.success then
          { message := optStrOr resp.message ("Person deleted successfully")
            type := ToastType.success }
          :: (if rebuildStartedTruthy resp.rebuild_started then [rebuildStartedToast] else [])
        else
          [{ message := optStrOr resp.error ("Failed to delete person"), type := ToastType.error }]
    | Except.error _ =>
        [{ message := "Failed to delete person", type := ToastType.error }]
  else []

/-- `handleAddImage` of `PersonModal.tsx`: the toasts it shows, given
whether a file was selected and the result of `addImage`. -/
def handleAddImageToasts (fileSelected : Bool) (r : Except Unit ApiResponse) : List Toast :=
  if fileSelected then
    match r with
    | Except.ok resp =>
        if resp.success then
          { message := optStrOr resp.message ("Image added successfully")
            type := ToastType.success }
          :: (if rebuildStartedTruthy resp.rebuild_started then [rebuildStartedToast] else [])
        else
          [{ message := optStrOr resp.error ("Failed to add image"), type := ToastType.error }]
    | Except.error _ =>
        [{ message := "Failed to add image", type := ToastType.error }]
  else [{ message := "Please select an image", type := ToastType.warning }]

/-- `handleDeleteImage` of `PersonModal.tsx`: the toasts it shows, given
whether the confirm dialog was accepted and the result of `deleteImage`. -/
def handleDeleteImageToasts (confirmed : Bool) (r : Except Unit ApiResponse) : List Toast :=
  if confirmed then
    match r with
    | Except.ok resp =>
        if resp.success then
          { message := "Image deleted successfully", type := ToastType.success }
          :: (if rebuildStartedTruthy resp.rebuild_started then [rebuildStartedToast] else [])
        else
          [{ message := optStrOr resp.error ("Failed to delete image"), type := ToastType.error }]
    | Except.error _ =>
        [{ message := "Failed to delete image", type := ToastType.error }]
  else []

/-- `handleSubmit` of `Enroll.tsx`: the toasts it shows, given the form
fields and the result of `enrollPerson`.  The handler guards on
`!name.trim()` and then submits `name.trim()`, so it is parametrised here
by the already-trimmed name. -/
def enrollSubmitToasts (trimmedName : String) (files : List String)
    (r : Except Unit ApiResponse) : List Toast :=
  if trimmedName = "" then
    [{ message := "Person name cannot be empty.", type := ToastType.warning }]
  else if files = [] then
    [{ message := "Please select at least one image.", type := ToastType.warning }]
  else
    match r with
    | Except.ok resp =>
        if resp.success then
          { message := optStrOr resp.message ("Person enrolled successfully")
            type := ToastType.success }
          :: (if rebuildStartedTruthy resp.rebuild_started then [rebuildStartedToast] else [])
        else
          [{ message := optStrOr resp.error ("Enrollment failed"), type := ToastType.error }]
    | Except.error _ =>
        [{ message := "Failed to enroll person", type := ToastType.error }]

/-! ## Sample values -/

/-- A sample mid-job status record, as the status endpoint would serve it. -/
def rebuildingStat : RebuildStatus :=
  { is_rebuilding := true
    progress := 40
    status := JobStatus.rebuilding
    message := "Encoding faces..."
    started_at := some ("t0")
    completed_at := none
    last_error := none
    triggered_by := some TriggeredBy.manual }

/-- A sample terminal (completed) status record with an empty message, so
the toast falls back to its default text. -/
def doneStat : RebuildStatus :=
  { is_rebuilding := false
    progress := 100
    status := JobStatus.completed
    message := ""
    started_at := some ("t0")
    completed_at := some ("t1")
    last_error := none
    triggered_by := some TriggeredBy.manual }

/-- A sample `/api/stats` payload embedding a running rebuild. -/
def stats0 : StatsResponse :=
  { total_identities := 2
    total_images := 5
    database := { dbExists := true, size := 1024, modified := none }
    rebuild_status := rebuildingStat }

/-- A sample session whose Dashboard holds a live poll interval timer. -/
def sessionWithTimer : Session :=
  { dash := { stats := some stats0
              rebuildStatus := some rebuildingStat
              loading := false
              pollInterval := some 0 }
    liveTimers := [0]
    nextTimer := 1 }

/-- A CRUD response that reports failure yet carries `rebuild_started=true`. -/
def failedWithRebuildStarted : ApiResponse :=
  { success := false
    message := none
    error := none
    rebuild_started := some true
    rebuild_message := none }

/-! ## Helper lemmas: invariant preservation -/

theorem jobInv_initial : JobInv initialJob := by
  simp [JobInv, initialJob]

theorem jobInv_step (s : RebuildStatus) (e : JobEvent) (h : JobInv s) :
    JobInv (jobStep s e) := by
  obtain ⟨h1, h2, h3, h4⟩ := h
  cases e with
  | trigger who now =>
      by_cases hr : s.is_rebuilding = true
      · simpa [jobStep, hr] using ⟨h1, h2, h3, h4⟩
      · simp [jobStep, hr, startJob, JobInv]
  | progressUpdate p msg =>
      by_cases hr : s.is_rebuilding = true
      · have hst := h1.mp hr
        rcases hst with hst | hst <;>
          simp_all [jobStep, JobInv]
      · simpa [jobStep, hr] using ⟨h1, h2, h3, h4⟩
  | reloadPhase msg =>
      by_cases hr : s.is_rebuilding = true
      · simp_all [jobStep, JobInv]
      · simpa [jobStep, hr] using ⟨h1, h2, h3, h4⟩
  | finishOk now =>
      by_cases hr : s.is_rebuilding = true
      · simp_all [jobStep, JobInv]
      · simpa [jobStep, hr] using ⟨h1, h2, h3, h4⟩
  | finishErr err now =>
      by_cases hr : s.is_rebuilding = true
      · simp_all [jobStep, JobInv]
      · simpa [jobStep, hr] using ⟨h1, h2, h3, h4⟩

theorem jobInv_reachable (s : RebuildStatus) (h : JobReachable s) : JobInv s := by
  induction h with
  | init => exact jobInv_initial
  | step _ e ih => exact jobInv_step _ e ih

theorem timerInv_initial : TimerInv initSession := by
  simp [TimerInv, initSession]

theorem timerInv_startPolling (ss : Session) (h : TimerInv ss) :
    TimerInv (startPolling ss) := by
  unfold TimerInv at *
  unfold startPolling
  cases hp : ss.dash.pollInterval with
  | none => simp_all
  | some t => simp_all

theorem timerInv_stopPolling (ss : Session) (h : TimerInv ss) :
    TimerInv (stopPolling ss) := by
  unfold TimerInv at *
  unfold stopPolling
  cases hp : ss.dash.pollInterval with
  | none => simp_all
  | some t => simp_all

theorem timerInv_step (ss : Session) (e : DashEvent) (h : TimerInv ss) :
    TimerInv (sessionStep ss e).1 := by
  cases e with
  | mount r =>
      cases r with
      | ok data =>
          by_cases hb : data.rebuild_status.is_rebuilding = true
          · simp only [sessionStep, mountRun, loadStats]
            simp only [hb, if_pos]
            exact timerInv_startPolling _ (by simpa [TimerInv] using h)
          · simp only [sessionStep, mountRun, loadStats]
            simp_all [TimerInv]
      | error u => simp_all [sessionStep, mountRun, loadStats, TimerInv]
  | pollTick st sr =>
      by_cases hp : ss.dash.pollInterval.isSome
      · cases st with
        | ok status =>
            by_cases ht : status.status = JobStatus.completed ∨ status.status = JobStatus.failed
            · simp only [sessionStep, hp, if_pos, pollRebuildStatusRun, ht]
              apply timerInv_stopPolling
              cases sr <;> simp_all [TimerInv, loadStats]
            · simp_all [sessionStep, pollRebuildStatusRun, TimerInv]
        | error u => simp_all [sessionStep, pollRebuildStatusRun, TimerInv]
      · simp_all [sessionStep]
  | rebuildClick r =>
      by_cases hl : isRebuildingLocal ss.dash.rebuildStatus = true
      · simp_all [sessionStep, handleRebuildRun]
      · cases r with
        | ok resp =>
            by_cases hsu : resp.success = true
            · simp only [sessionStep, handleRebuildRun, hl, hsu]
              simp only [Bool.false_eq_true, if_false, if_pos]
              exact timerInv_startPolling _ h
            · simp_all [sessionStep, handleRebuildRun]
        | error u => simp_all [sessionStep, handleRebuildRun]
  | refreshClick r =>
      cases r <;> simp_all [sessionStep, loadStats, TimerInv]
  | unmount =>
      exact timerInv_stopPolling _ (by simpa [sessionStep, unmountRun] using h)

theorem timerInv_reachable (ss : Session) (h : SessionReachable ss) : TimerInv ss := by
  induction h with
  | init => exact timerInv_initial
  | step _ e ih => exact timerInv_step _ e ih

theorem startPolling_isSome (ss : Session) :
    (startPolling ss).dash.pollInterval.isSome = true := by
  unfold startPolling
  cases hp : ss.dash.pollInterval <;> simp [hp]

/-! ## Claim theorems -/

/-- C3: the Trigger Endpoint returns a record of shape
`{success, error?, status?}`; when a job is already running it returns
`success=false` as a normal failure result (the endpoint is a total
function, not a raised exception) and leaves the existing job record
unchanged. -/
theorem trigger_rejects_while_running (s : RebuildStatus) (who : TriggeredBy)
    (now : String) (h : s.is_rebuilding = true) :
    (rebuild_db s who now).1.success = false
    ∧ (rebuild_db s who now).1.error = some ("Rebuild already in progress")
    ∧ (rebuild_db s who now).1.status = some s
    ∧ (rebuild_db s who now).2 = s
    ∧ ("success", FieldTy.boolean) ∈ rebuildDbResponseFields
    ∧ ("error", FieldTy.optStr) ∈ rebuildDbResponseFields
    ∧ ("status", FieldTy.optRebuildStatus) ∈ rebuildDbResponseFields :=
  ⟨by simp [rebuild_db, h], by simp [rebuild_db, h], by simp [rebuild_db, h],
   by simp [rebuild_db, h], by decide, by decide, by decide⟩

/-- Witness for C3: a trigger against a freshly started (hence running) job
is rejected with no state change. -/
theorem trigger_rejects_while_running_witness :
    (rebuild_db (startJob TriggeredBy.manual ("t0")) TriggeredBy.enroll ("t2")).1.success = false
    ∧ (rebuild_db (startJob TriggeredBy.manual ("t0")) TriggeredBy.enroll ("t2")).1.error
        = some ("Rebuild already in progress")
    ∧ (rebuild_db (startJob TriggeredBy.manual ("t0")) TriggeredBy.enroll ("t2")).1.status
        = some (startJob TriggeredBy.manual ("t0"))
    ∧ (rebuild_db (startJob TriggeredBy.manual ("t0")) TriggeredBy.enroll ("t2")).2
        = startJob TriggeredBy.manual ("t0")
    ∧ ("success", FieldTy.boolean) ∈ rebuildDbResponseFields
    ∧ ("error", FieldTy.optStr) ∈ rebuildDbResponseFields
    ∧ ("status", FieldTy.optRebuildStatus) ∈ rebuildDbResponseFields :=
  trigger_rejects_while_running (startJob TriggeredBy.manual ("t0")) TriggeredBy.enroll ("t2")
    (by decide)

/-- C4: in every reachable job record, `status=completed` implies
`last_error` unset and `progress=100`, and `status=failed` implies
`last_error` set. -/
theorem terminal_state_invariants (s : RebuildStatus) (h : JobReachable s) :
    (s.status = JobStatus.completed → s.last_error = none ∧ s.progress = 100)
    ∧ (s.status = JobStatus.failed → ∃ e, s.last_error = some e) := by
  obtain ⟨h1, h2, h3, h4⟩ := jobInv_reachable s h
  refine ⟨h3, fun hf => ?_⟩
  have hne := h4 hf
  cases he : s.last_error with
  | none => exact absurd he hne
  | some e => exact ⟨e, rfl⟩

/-- Witness for C4: a triggered-then-completed job has no error and full
progress. -/
theorem terminal_state_invariants_witness :
    (jobStep (jobStep initialJob (JobEvent.trigger TriggeredBy.manual ("t0")))
        (JobEvent.finishOk ("t1"))).last_error = none
    ∧ (jobStep (jobStep initialJob (JobEvent.trigger TriggeredBy.manual ("t0")))
        (JobEvent.finishOk ("t1"))).progress = 100 :=
  (terminal_state_invariants _
      (JobReachable.step
        (JobReachable.step JobReachable.init (JobEvent.trigger TriggeredBy.manual ("t0")))
        (JobEvent.finishOk ("t1")))).1
    (by decide)

/-- C6: a failed poll request is swallowed: the tick leaves the session
(including the live timer) unchanged, shows no toast, and issues no stats
refresh — polling simply retries on the next tick. -/
theorem poll_failure_swallowed (ss : Session) (sr : Except Unit StatsResponse)
    (h : ss.dash.pollInterval.isSome = true) :
    sessionStep ss (DashEvent.pollTick (Except.error ()) sr)
      = (ss, [], [ApiCall.getRebuildStatus]) := by
  simp [sessionStep, h, pollRebuildStatusRun]

/-- Witness for C6 at a concrete polling session. -/
theorem poll_failure_swallowed_witness :
    sessionStep sessionWithTimer (DashEvent.pollTick (Except.error ()) (Except.ok stats0))
      = (sessionWithTimer, [], [ApiCall.getRebuildStatus]) :=
  poll_failure_swallowed sessionWithTimer (Except.ok stats0) (by decide)

/-- C7: on teardown (unmount) the Dashboard clears its poll interval, so a
reachable session has no live timer left afterwards, regardless of the
backend's job state. -/
theorem unmount_clears_poll_timer (ss : Session) (h : SessionReachable ss) :
    (sessionStep ss DashEvent.unmount).1.liveTimers = []
    ∧ (sessionStep ss DashEvent.unmount).1.dash.pollInterval = none := by
  have hinv := timerInv_reachable ss h
  unfold TimerInv at hinv
  constructor
  · cases hp : ss.dash.pollInterval with
    | none => simp_all [sessionStep, unmountRun, stopPolling]
    | some t => simp_all [sessionStep, unmountRun, stopPolling]
  · cases hp : ss.dash.pollInterval with
    | none => simp_all [sessionStep, unmountRun, stopPolling]
    | some t => simp [sessionStep, unmountRun, stopPolling, hp]

/-- Witness for C7: mounting over a running rebuild starts a timer, and
unmounting destroys it. -/
theorem unmount_clears_poll_timer_witness :
    (sessionStep (sessionStep initSession (DashEvent.mount (Except.ok stats0))).1
        DashEvent.unmount).1.liveTimers = []
    ∧ (sessionStep (sessionStep initSession (DashEvent.mount (Except.ok stats0))).1
        DashEvent.unmount).1.dash.pollInterval = none :=
  unmount_clears_poll_timer _
    (SessionReachable.step SessionReachable.init (DashEvent.mount (Except.ok stats0)))

/-- C9: `startPolling` is idempotent — it does nothing while a poll
interval already exists — and consequently every reachable session holds at
most one live poll interval timer. -/
theorem startPolling_idempotent :
    (∀ ss : Session, ss.dash.pollInterval.isSome = true → startPolling ss = ss)
    ∧ (∀ ss : Session, SessionReachable ss → ss.liveTimers.length ≤ 1) := by
  constructor
  · intro ss h
    simp [startPolling, h]
  · intro ss h
    have hinv := timerInv_reachable ss h
    unfold TimerInv at hinv
    rw [hinv]
    cases ss.dash.pollInterval <;> simp

/-- Witness for C9 at concrete sessions. -/
theorem startPolling_idempotent_witness :
    startPolling sessionWithTimer = sessionWithTimer
    ∧ initSession.liveTimers.length ≤ 1 :=
  ⟨startPolling_idempotent.1 sessionWithTimer (by decide),
   startPolling_idempotent.2 initSession SessionReachable.init⟩

/-- C10: when the locally cached status shows a rebuild in progress,
`handleRebuild` only shows a warning toast and returns — no
`POST /api/rebuild_db` request is issued and the session is unchanged. -/
theorem handleRebuild_client_guard (ss : Session) (st : RebuildStatus)
    (resp : Except Unit RebuildDbResponse)
    (h1 : ss.dash.rebuildStatus = some st) (h2 : st.is_rebuilding = true) :
    sessionStep ss (DashEvent.rebuildClick resp)
      = (ss, [{ message := "Rebuild already in progress", type := ToastType.warning }], []) := by
  simp [sessionStep, handleRebuildRun, isRebuildingLocal, h1, h2]

/-- Witness for C10 at a concrete session mid-rebuild. -/
theorem handleRebuild_client_guard_witness :
    sessionStep sessionWithTimer (DashEvent.rebuildClick (Except.error ()))
      = (sessionWithTimer,
         [{ message := "Rebuild already in progress", type := ToastType.warning }], []) :=
  handleRebuild_client_guard sessionWithTimer rebuildingStat (Except.error ())
    (by decide) (by decide)

/-- C1: the Client Poller runs at a fixed 1000 ms interval; polling starts
after a successful trigger and on initial load over a running rebuild; the
first tick observing a terminal status clears the timer and issues exactly
one final stats reload; a non-terminal tick keeps the timer and issues no
stats reload; once the timer is gone, ticks do nothing. -/
theorem poller_poll_lifecycle :
    pollIntervalMs = 1000
    ∧ (∀ ss : Session, ∀ data : StatsResponse,
        data.rebuild_status.is_rebuilding = true →
        (sessionStep ss (DashEvent.mount (Except.ok data))).1.dash.pollInterval.isSome = true)
    ∧ (∀ ss : Session, ∀ r : RebuildDbResponse,
        isRebuildingLocal ss.dash.rebuildStatus = false → r.success = true →
        (sessionStep ss (DashEvent.rebuildClick (Except.ok r))).1.dash.pollInterval.isSome = true)
    ∧ (∀ ss : Session, ∀ stat : RebuildStatus, ∀ sr : Except Unit StatsResponse,
        ss.dash.pollInterval.isSome = true →
        (stat.status = JobStatus.completed ∨ stat.status = JobStatus.failed) →
        (sessionStep ss (DashEvent.pollTick (Except.ok stat) sr)).1.dash.pollInterval = none
        ∧ (sessionStep ss (DashEvent.pollTick (Except.ok stat) sr)).2.2
            = [ApiCall.getRebuildStatus, ApiCall.getStats])
    ∧ (∀ ss : Session, ∀ stat : RebuildStatus, ∀ sr : Except Unit StatsResponse,
        ss.dash.pollInterval.isSome = true →
        ¬(stat.status = JobStatus.completed ∨ stat.status = JobStatus.failed) →
        (sessionStep ss (DashEvent.pollTick (Except.ok stat) sr)).1.dash.pollInterval
            = ss.dash.pollInterval
        ∧ (sessionStep ss (DashEvent.pollTick (Except.ok stat) sr)).2.2
            = [ApiCall.getRebuildStatus])
    ∧ (∀ ss : Session, ∀ st : Except Unit RebuildStatus, ∀ sr : Except Unit StatsResponse,
        ss.dash.pollInterval = none →
        sessionStep ss (DashEvent.pollTick st sr) = (ss, [], [])) := by
  refine ⟨rfl, ?_, ?_, ?_, ?_, ?_⟩
  · intro ss data hb
    simp only [sessionStep, mountRun, loadStats, hb, if_pos]
    exact startPolling_isSome _
  · intro ss r hl hsu
    simp only [sessionStep, handleRebuildRun, hl, Bool.false_eq_true, if_false, hsu, if_pos]
    exact startPolling_isSome _
  · intro ss stat sr h ht
    obtain ⟨t, hp⟩ := Option.isSome_iff_exists.mp h
    cases sr with
    | ok data =>
        exact ⟨by simp [sessionStep, h, pollRebuildStatusRun, ht, loadStats, stopPolling, hp],
               by simp [sessionStep, h, pollRebuildStatusRun, ht, loadStats]⟩
    | error u =>
        exact ⟨by simp [sessionStep, h, pollRebuildStatusRun, ht, loadStats, stopPolling, hp],
               by simp [sessionStep, h, pollRebuildStatusRun, ht, loadStats]⟩
  · intro ss stat sr h ht
    exact ⟨by simp [sessionStep, h, pollRebuildStatusRun, ht],
           by simp [sessionStep, h, pollRebuildStatusRun, ht]⟩
  · intro ss st sr h
    simp [sessionStep, h]

/-- Witness for C1: on a session with a live timer, a tick observing a
completed status clears the timer and issues the single final stats
reload. -/
theorem poller_poll_lifecycle_witness :
    pollIntervalMs = 1000
    ∧ ((sessionStep sessionWithTimer
          (DashEvent.pollTick (Except.ok doneStat) (Except.ok stats0))).1.dash.pollInterval = none
       ∧ (sessionStep sessionWithTimer
          (DashEvent.pollTick (Except.ok doneStat) (Except.ok stats0))).2.2
            = [ApiCall.getRebuildStatus, ApiCall.getStats]) :=
  ⟨poller_poll_lifecycle.1,
   poller_poll_lifecycle.2.2.2.1 sessionWithTimer doneStat (Except.ok stats0)
     (by decide) (by decide)⟩

/-- C2 (counterexample): the job record of the status protocol has no field
named `is_running`; the repository's field name is `is_rebuilding`. -/
theorem rebuildStatus_no_is_running_field :
    ("is_running", FieldTy.boolean) ∉ rebuildStatusFields
    ∧ "is_running" ∉ rebuildStatusFields.map Prod.fst := by
  decide

/-- C2 (amended): the job record carries a boolean field named
`is_rebuilding` — true strictly between job start and terminal state, i.e.
exactly in the `rebuilding`/`reloading` phases of every reachable job —
alongside `progress`, `status`, `message`, `started_at`, `completed_at`,
`last_error` and `triggered_by`. -/
theorem rebuildStatus_running_flag_fields :
    ("is_rebuilding", FieldTy.boolean) ∈ rebuildStatusFields
    ∧ ("progress", FieldTy.number) ∈ rebuildStatusFields
    ∧ ("status", FieldTy.statusEnum) ∈ rebuildStatusFields
    ∧ ("message", FieldTy.str) ∈ rebuildStatusFields
    ∧ ("started_at", FieldTy.nullableStr) ∈ rebuildStatusFields
    ∧ ("completed_at", FieldTy.nullableStr) ∈ rebuildStatusFields
    ∧ ("last_error", FieldTy.nullableStr) ∈ rebuildStatusFields
    ∧ ("triggered_by", FieldTy.nullableTriggerEnum) ∈ rebuildStatusFields
    ∧ (∀ s : RebuildStatus, JobReachable s →
        (s.is_rebuilding = true
          ↔ (s.status = JobStatus.rebuilding ∨ s.status = JobStatus.reloading))) := by
  refine ⟨by decide, by decide, by decide, by decide, by decide, by decide, by decide,
          by decide, ?_⟩
  intro s h
  exact (jobInv_reachable s h).1

/-- Witness for C2's amended running-flag characterisation at a freshly
triggered job. -/
theorem rebuildStatus_running_flag_fields_witness :
    (jobStep initialJob (JobEvent.trigger TriggeredBy.manual ("t0"))).is_rebuilding = true
      ↔ ((jobStep initialJob (JobEvent.trigger TriggeredBy.manual ("t0"))).status
            = JobStatus.rebuilding
         ∨ (jobStep initialJob (JobEvent.trigger TriggeredBy.manual ("t0"))).status
            = JobStatus.reloading) :=
  rebuildStatus_running_flag_fields.2.2.2.2.2.2.2.2 _
    (JobReachable.step JobReachable.init (JobEvent.trigger TriggeredBy.manual ("t0")))

/-- C5 (counterexample): the reachable idle record is non-terminal, yet the
Dashboard renders no progress indicator for it — the indicator is gated on
`is_rebuilding`, not on non-terminality. -/
theorem nonterminal_idle_no_progress_indicator :
    JobReachable initialJob
    ∧ initialJob.status ≠ JobStatus.completed
    ∧ initialJob.status ≠ JobStatus.failed
    ∧ progressIndicatorShown (some initialJob) = false :=
  ⟨JobReachable.init, by decide, by decide, by decide⟩

/-- C5 (amended): a poll tick observing a terminal status (with the final
stats refresh succeeding) emits exactly one notification — a success toast
for `completed`, an error toast for `failed`, with the record's message text
or its default; a tick observing a non-terminal status emits no
notification, and the progress indicator is rendered exactly when the
record's `is_rebuilding` flag is set. -/
theorem terminal_toast_and_progress_indicator (ss : Session) (stat : RebuildStatus)
    (resp : StatsResponse) (h : ss.dash.pollInterval.isSome = true) :
    (stat.status = JobStatus.completed →
      (sessionStep ss (DashEvent.pollTick (Except.ok stat) (Except.ok resp))).2.1
        = [{ message := strOr stat.message ("Database rebuild completed!")
             type := ToastType.success }])
    ∧ (stat.status = JobStatus.failed →
      (sessionStep ss (DashEvent.pollTick (Except.ok stat) (Except.ok resp))).2.1
        = [{ message := strOr stat.message ("Database rebuild failed")
             type := ToastType.error }])
    ∧ (stat.status ≠ JobStatus.completed → stat.status ≠ JobStatus.failed →
      (sessionStep ss (DashEvent.pollTick (Except.ok stat) (Except.ok resp))).2.1 = []
      ∧ progressIndicatorShown (some stat) = stat.is_rebuilding) := by
  refine ⟨fun hc => ?_, fun hf => ?_, fun hnc hnf => ⟨?_, ?_⟩⟩
  · simp [sessionStep, h, pollRebuildStatusRun, hc, loadStats]
  · simp [sessionStep, h, pollRebuildStatusRun, hf, loadStats]
  · simp [sessionStep, h, pollRebuildStatusRun, hnc, hnf]
  · simp [progressIndicatorShown, isRebuildingLocal]

/-- Witness for C5's amended statement: a completed status with an empty
message yields exactly the default success toast. -/
theorem terminal_toast_and_progress_indicator_witness :
    (sessionStep sessionWithTimer
        (DashEvent.pollTick (Except.ok doneStat) (Except.ok stats0))).2.1
      = [{ message := strOr doneStat.message ("Database rebuild completed!")
           type := ToastType.success }] :=
  (terminal_toast_and_progress_indicator sessionWithTimer doneStat stats0 (by decide)).1
    (by decide)

/-- C8 (counterexample): a response carrying `rebuild_started=true` but
`success=false` does not surface the rebuild-started info toast, so the
toast does not appear exactly when the flag is true. -/
theorem rebuild_started_toast_requires_success :
    failedWithRebuildStarted.rebuild_started = some true
    ∧ rebuildStartedToast ∉ handleDeleteToasts true (Except.ok failedWithRebuildStarted)
    ∧ rebuildStartedToast
        ∉ enrollSubmitToasts ("alice") (["a.jpg"]) (Except.ok failedWithRebuildStarted) := by
  decide

/-- C8 (amended): each of the four CRUD client operations sends an
`auto_rebuild` flag defaulting to true; the response type carries an
optional `rebuild_started` boolean; and each handler surfaces the
rebuild-started info notification exactly when the response is successful
and the flag is true. -/
theorem crud_auto_rebuild_and_toast :
    (∀ name info : String, ∀ images : List String,
        ("auto_rebuild", "true") ∈ (enrollPersonReq name info images defaultAutoRebuild).form)
    ∧ (∀ p i : String, ("auto_rebuild", "true") ∈ (addImageReq p i defaultAutoRebuild).form)
    ∧ (∀ p : String, ("auto_rebuild", "true") ∈ (deletePersonReq p defaultAutoRebuild).form)
    ∧ (∀ p f : String, ("auto_rebuild", "true") ∈ (deleteImageReq p f defaultAutoRebuild).form)
    ∧ ("rebuild_started", FieldTy.optBoolean) ∈ apiResponseFields
    ∧ (∀ r : ApiResponse,
        (rebuildStartedToast ∈ handleDeleteToasts true (Except.ok r)
          ↔ (r.success = true ∧ r.rebuild_started = some true))
        ∧ (rebuildStartedToast ∈ handleAddImageToasts true (Except.ok r)
          ↔ (r.success = true ∧ r.rebuild_started = some true))
        ∧ (rebuildStartedToast ∈ handleDeleteImageToasts true (Except.ok r)
          ↔ (r.success = true ∧ r.rebuild_started = some true))
        ∧ (rebuildStartedToast ∈ enrollSubmitToasts ("alice") (["a.jpg"]) (Except.ok r)
          ↔ (r.success = true ∧ r.rebuild_started = some true))) := by
  refine ⟨?_, ?_, ?_, ?_, by decide, ?_⟩
  · intro name info images
    simp [enrollPersonReq, defaultAutoRebuild, boolToString]
  · intro p i
    simp [addImageReq, defaultAutoRebuild, boolToString]
  · intro p
    simp [deletePersonReq, defaultAutoRebuild, boolToString]
  · intro p f
    simp [deleteImageReq, defaultAutoRebuild, boolToString]
  · intro r
    obtain ⟨su, m, e, rs, rm⟩ := r
    refine ⟨?_, ?_, ?_, ?_⟩ <;>
      cases su <;> rcases rs with _ | (_ | _) <;>
        simp [handleDeleteToasts, handleAddImageToasts, handleDeleteImageToasts,
              enrollSubmitToasts, rebuildStartedTruthy, rebuildStartedToast,
              optStrOr, strOr, Toast.mk.injEq]

end FacialRecognition
